import Mathlib

/-!
Verification of the ai-ulu agents scheduling core: a shallow embedding of
`agents/core/memory.py`, `agents/core/task_queue.py`, `agents/core/cortex.py`,
`agents/core/base_agent.py` and `agents/orchestrator.py`, together with
theorems settling the specification claims.

Modelling conventions:
* Python floats are modelled as exact rationals (`ℚ`); `round(x, n)` is
  modelled as round-half-to-even on rationals, `int(x)` as truncation
  toward zero.
* JSON dictionaries holding tasks are modelled as a structure whose fields
  are `Option`-valued: `none` stands for an absent key.
* Timestamps (`datetime.utcnow()`) are modelled as naturals supplied by the
  environment; Python's falsy test `x or d` treats `0` like the empty string.
* On-disk JSON stores are modelled as explicit state threaded through the
  functions; a file that may be missing, corrupt, or parsed is an
  inductive `StoreFile`.
-/

/-- Python `int(q)`: truncation toward zero. -/
def pyInt (q : ℚ) : ℤ := if 0 ≤ q then ⌊q⌋ else ⌈q⌉

/-- Round a rational to the nearest integer, ties to even
(the rounding used by Python's `round`). -/
def roundHalfEven (q : ℚ) : ℤ :=
  let f := ⌊q⌋
  let r := q - f
  if r < 1/2 then f
  else if 1/2 < r then f + 1
  else if f % 2 = 0 then f else f + 1

/-- Python `round(q, d)` on exact rationals. -/
def pyRound (q : ℚ) (d : ℕ) : ℚ := (roundHalfEven (q * 10 ^ d) : ℚ) / 10 ^ d

theorem roundHalfEven_nonneg {q : ℚ} (h : 0 ≤ q) : 0 ≤ roundHalfEven q := by
  have hf : (0 : ℤ) ≤ ⌊q⌋ := Int.floor_nonneg.mpr h
  unfold roundHalfEven
  dsimp only
  split
  · exact hf
  · split
    · omega
    · split
      · exact hf
      · omega

theorem pyRound_nonneg {q : ℚ} (h : 0 ≤ q) (d : ℕ) : 0 ≤ pyRound q d := by
  unfold pyRound
  have h10 : (0 : ℚ) < 10 ^ d := by positivity
  have hq : (0 : ℚ) ≤ q * 10 ^ d := by positivity
  have := roundHalfEven_nonneg hq
  have hcast : (0 : ℚ) ≤ (roundHalfEven (q * 10 ^ d) : ℚ) := by exact_mod_cast this
  positivity

/-- Python string truthiness for `x or default` on an optional string. -/
def pyOrS (x : Option String) (d : String) : String :=
  match x with
  | none => d
  | some s => if s = "" then d else s

/-- Per-character lowercase, mirroring `str.lower()` (ASCII range). -/
def pyLower (s : String) : String := ⟨s.data.map Char.toLower⟩

/-- Per-character uppercase, mirroring `str.upper()` (ASCII range). -/
def pyUpper (s : String) : String := ⟨s.data.map Char.toUpper⟩

/-- `str.strip()`: drop whitespace from both ends. -/
def pyStrip (s : String) : String :=
  ⟨(s.data.dropWhile Char.isWhitespace).reverse.dropWhile Char.isWhitespace |>.reverse⟩

/-- `str.startswith(p)`. -/
def pyStartsWith (s p : String) : Bool := p.data.isPrefixOf s.data

/-- `str.endswith(p)`. -/
def pyEndsWith (s p : String) : Bool := p.data.isSuffixOf s.data

/-- `s[:-1]`: all characters but the last. -/
def pyDropLast (s : String) : String := ⟨s.data.dropLast⟩

/-- `s[1:]`: all characters but the first. -/
def pyDropFirst (s : String) : String := ⟨s.data.drop 1⟩

/-- Keep the last `n` elements of a list (Python `l[-n:]`). -/
def lastN {α : Type} (l : List α) (n : ℕ) : List α := l.drop (l.length - n)

/-! ## agents/core/memory.py — AgentMemory -/

/-- One entry of the bounded human-readable activity feed
(`data["activities"]`; the constant `"time"` field is omitted). -/
structure ActivityEntry where
  icon : String
  text : String
deriving DecidableEq, Repr

/-- Modelled from the spec: per-agent cooldown state (§4.4) — the
`AgentMemory` methods `get_backoff_seconds` / `can_run` /
`record_agent_result` called by the orchestrator are missing from `src/`;
the spec prescribes a last-run timestamp and a consecutive-failure count. -/
structure AgentStat where
  lastRun : Option ℕ
  consecutiveFailures : ℕ
deriving DecidableEq, Repr

/-- The persistent state of `AgentMemory` (`war-room/data/agent_memory.json`),
plus the spec-modelled cooldown table and last-issue slot. -/
structure MemoryState where
  activities : List ActivityEntry
  repairs : ℕ
  totalTime : ℚ
  repairTimes : List ℚ
  operations : ℕ
  opsWindow : List ℕ
  panicCount : ℕ
  panicResolved : ℕ
  panicStatus : Bool
  panicReason : Option String
  panicAt : Option ℕ
  agentStats : List (String × AgentStat)
  lastIssue : Option (String × ℕ)
deriving DecidableEq, Repr

/-- The seed state written by `AgentMemory._ensure_storage`. -/
def MemoryState.initial : MemoryState :=
  { activities := [], repairs := 0, totalTime := 0, repairTimes := []
    operations := 0, opsWindow := [], panicCount := 0, panicResolved := 0
    panicStatus := false, panicReason := none, panicAt := none
    agentStats := [], lastIssue := none }

namespace AgentMemory

/-- `AgentMemory.record_activity`: prepend an entry, keep the latest 10. -/
def record_activity (agentName text : String) (icon : String) (st : MemoryState) :
    MemoryState :=
  { st with activities :=
      ({ icon := icon, text := agentName ++ ": " ++ text } :: st.activities).take 10 }

/-- `AgentMemory.record_event`: log an activity, bump the operation counter and
append a success/failure bit to the sliding window (last 20 kept). -/
def record_event (agentName action result : String) (st : MemoryState) : MemoryState :=
  let isSuccess := pyLower result = "ok" ∨ pyLower result = "success" ∨
    pyLower result = "fixed"
  let icon := if isSuccess then "[OK]" else "[WARN]"
  let text := agentName ++ ": " ++ action ++ " -> " ++ result
  let st1 := record_activity agentName text icon st
  { st1 with
    operations := st1.operations + 1
    opsWindow := lastN (st1.opsWindow ++ [if isSuccess then 1 else 0]) 20 }

/-- `AgentMemory.record_repair`. -/
def record_repair (durationMinutes : ℚ) (st : MemoryState) : MemoryState :=
  { st with
    repairs := st.repairs + 1
    repairTimes := lastN (st.repairTimes ++ [durationMinutes]) 100
    totalTime := st.totalTime + durationMinutes }

/-- `AgentMemory.set_panic`: edge-triggered panic state transition. -/
def set_panic (now : ℕ) (status : Bool) (reason : String) (st : MemoryState) :
    MemoryState :=
  let wasPanic := st.panicStatus
  let st1 := { st with
    panicStatus := status
    panicReason := some reason
    panicAt := if status then some now else none
    panicCount := if status ∧ ¬ wasPanic then st.panicCount + 1 else st.panicCount
    panicResolved :=
      if ¬ status ∧ wasPanic then st.panicResolved + 1 else st.panicResolved }
  if status then
    { st1 with activities :=
        ({ icon := "[ALARM]", text := "PANIC: " ++ reason } :: st1.activities).take 10 }
  else st1

/-- The dictionary returned by `AgentMemory.get_sync_metrics`. -/
structure Metrics where
  repairs : ℕ
  totalTime : ℚ
  mttr : ℚ
  rsi : ℚ
  operations : ℕ
  opsWindow : List ℕ
  panicCount : ℕ
  panicResolved : ℕ
  panicStatus : Bool
  panicReason : Option String
  panicAt : Option ℕ
deriving DecidableEq, Repr

/-- `AgentMemory.get_sync_metrics`. -/
def get_sync_metrics (st : MemoryState) : Metrics :=
  let mttr : ℚ :=
    if st.repairTimes ≠ [] then pyRound (st.repairTimes.sum / st.repairTimes.length) 2
    else if st.repairs > 0 then pyRound (st.totalTime / st.repairs) 2
    else 0
  let totalOps := st.opsWindow.length
  let opsSuccess := st.opsWindow.sum
  let successRate : ℚ := if totalOps > 0 then ((opsSuccess : ℚ) / totalOps) * 100 else 0
  let recoveryBonus : ℚ :=
    if st.panicCount > 0 then ((st.panicResolved : ℚ) / max 1 st.panicCount) * 5 else 0
  let rsi := min (999/10) (pyRound (successRate + recoveryBonus) 1)
  { repairs := st.repairs, totalTime := st.totalTime, mttr := mttr, rsi := rsi
    operations := st.operations, opsWindow := st.opsWindow
    panicCount := st.panicCount, panicResolved := st.panicResolved
    panicStatus := st.panicStatus, panicReason := st.panicReason
    panicAt := st.panicAt }

end AgentMemory

/-! ### Claim-side formulas for the RSI (stated from the spec's words) -/

/-- Spec formula: `success_rate = successes_in_window / window_size * 100`,
`0` if the window is empty. -/
def successRateSpec (w : List ℕ) : ℚ :=
  if w.length > 0 then ((w.sum : ℚ) / w.length) * 100 else 0

/-- Spec formula: `recovery_bonus = (panic_resolved / max(1, panic_events)) * 5`,
`0` if no panic events were ever recorded. -/
def recoveryBonusSpec (panicCount panicResolved : ℕ) : ℚ :=
  if panicCount > 0 then ((panicResolved : ℚ) / max 1 panicCount) * 5 else 0

theorem successRateSpec_nonneg (w : List ℕ) : 0 ≤ successRateSpec w := by
  unfold successRateSpec
  split
  · positivity
  · exact le_refl 0

theorem recoveryBonusSpec_nonneg (pc pr : ℕ) : 0 ≤ recoveryBonusSpec pc pr := by
  unfold recoveryBonusSpec
  split
  · positivity
  · exact le_refl 0

/-- **C1.** The RSI returned by `get_sync_metrics` is
`min(99.9, round(success_rate + recovery_bonus, 1))`; it always lies in
`[0, 99.9]`; it is `0` for an empty window with no panic events; and it is
`80.0` for `ops_window = [1,1,1,1,0]` with no panic events. -/
theorem C1_rsi_formula (st : MemoryState) :
    (AgentMemory.get_sync_metrics st).rsi =
      min (999/10)
        (pyRound (successRateSpec st.opsWindow +
          recoveryBonusSpec st.panicCount st.panicResolved) 1) ∧
    0 ≤ (AgentMemory.get_sync_metrics st).rsi ∧
    (AgentMemory.get_sync_metrics st).rsi ≤ 999/10 ∧
    (st.opsWindow = [] → st.panicCount = 0 →
      (AgentMemory.get_sync_metrics st).rsi = 0) ∧
    (AgentMemory.get_sync_metrics
        { st with opsWindow := [1,1,1,1,0], panicCount := 0 }).rsi = 80 := by
  have hsr := successRateSpec_nonneg st.opsWindow
  have hrb := recoveryBonusSpec_nonneg st.panicCount st.panicResolved
  refine ⟨rfl, ?_, ?_, ?_, ?_⟩
  · show 0 ≤ min (999/10 : ℚ) _
    refine le_min (by norm_num) ?_
    exact pyRound_nonneg (by positivity) 1
  · exact min_le_left _ _
  · intro hw hp
    show min (999/10 : ℚ) _ = 0
    rw [hw, hp]
    norm_num [pyRound, roundHalfEven]
  · show min (999/10 : ℚ) _ = 80
    norm_num [pyRound, roundHalfEven]

/-- Witness for C1 at concrete inputs: the empty seed state has RSI `0`. -/
theorem C1_rsi_formula_witness :
    (AgentMemory.get_sync_metrics MemoryState.initial).rsi = 0 :=
  (C1_rsi_formula MemoryState.initial).2.2.2.1 rfl rfl

/-! ## agents/core/task_queue.py — TaskQueue -/

/-- A task envelope: a JSON dictionary whose keys may be absent (`none`).
`created_at` carries the string timestamp supplied by callers;
`started_at` / `completed_at` are the queue's own stamps, modelled as
naturals. -/
structure TaskD where
  id : Option String := none
  type : Option String := none
  target : Option String := none
  priority : Option String := none
  impact : Option String := none
  category : Option String := none
  createdAt : Option ℕ := none
  startedAt : Option ℕ := none
  completedAt : Option ℕ := none
  result : Option String := none
  scenario : Option String := none
  package : Option String := none
  note : Option String := none
deriving DecidableEq, Repr

/-- The three buckets of `war-room/data/task_queue.json`. -/
structure QueueState where
  pending : List TaskD := []
  inProgress : List TaskD := []
  completed : List TaskD := []
deriving DecidableEq, Repr

namespace TaskQueue

/-- The normalized record built inside `TaskQueue.enqueue`: exactly the keys
`id`, `type`, `target`, `priority`, `impact`, `category`, `created_at`
(Python's `x or default` treats the empty id / the zero timestamp as absent). -/
def enqueue_record (genId : String) (now : ℕ) (t : TaskD) : TaskD :=
  { id := some (match t.id with
      | some s => if s = "" then genId else s
      | none => genId)
    type := t.type
    target := t.target
    priority := some (t.priority.getD "normal")
    impact := some (t.impact.getD "normal")
    category := some (t.category.getD "muscle")
    createdAt := some (match t.createdAt with
      | some c => if c = 0 then now else c
      | none => now) }

/-- `TaskQueue.enqueue`: append the normalized record to the pending bucket. -/
def enqueue (genId : String) (now : ℕ) (t : TaskD) (q : QueueState) : QueueState :=
  { q with pending := q.pending ++ [enqueue_record genId now t] }

/-- `TaskQueue.pop_by_id`: move the pending task with the given id to the
in-progress bucket, stamping a start time; returns `none` (and leaves the
store unchanged) when the id is empty or not found. -/
def pop_by_id (now : ℕ) (taskId : String) (q : QueueState) :
    Option TaskD × QueueState :=
  if taskId = "" then (none, q)
  else
    match q.pending.find? (fun t => t.id == some taskId) with
    | none => (none, q)
    | some t =>
      let t' := { t with startedAt := some now }
      (some t',
       { q with
         pending := q.pending.filter (fun u => u.id != some taskId)
         inProgress := q.inProgress ++ [t'] })

/-- `TaskQueue.complete`: drop the task's id from in-progress and append the
task, stamped with completion time and result, to the completed bucket. -/
def complete (now : ℕ) (task : TaskD) (result : String) (q : QueueState) :
    QueueState :=
  let task' := { task with completedAt := some now, result := some result }
  { q with
    inProgress := q.inProgress.filter (fun u => u.id != task.id)
    completed := q.completed ++ [task'] }

/-- `TaskQueue.has_task`: existence of a task of the given (upper-cased) type
across the pending and in-progress buckets. -/
def has_task (q : QueueState) (taskType : String) : Bool :=
  let tt := pyUpper taskType
  (q.pending ++ q.inProgress).any (fun t => pyUpper (t.type.getD "") == tt)

end TaskQueue

/-- Number of entries with the given id in a task list. -/
def count_id (i : String) (l : List TaskD) : ℕ :=
  (l.filter (fun u => u.id == some i)).length

theorem find_append_none {α : Type} (p : α → Bool) (l₁ l₂ : List α)
    (h : ∀ x ∈ l₁, p x = false) : (l₁ ++ l₂).find? p = l₂.find? p := by
  induction l₁ with
  | nil => rfl
  | cons a as ih =>
    have hpa := h a (List.mem_cons_self a as)
    simp only [List.cons_append, List.find?, hpa]
    exact ih (fun x hx => h x (List.mem_cons_of_mem a hx))

/-- The payload field reads performed by `Orchestrator.dispatch`
(`task.get("scenario", "dependency_corruption")`, etc.). -/
def dispatch_scenario (t : TaskD) : String := t.scenario.getD "dependency_corruption"

/-- `task.get("package", "unknown")` in the WATCH branch of `dispatch`. -/
def dispatch_package (t : TaskD) : String := t.package.getD "unknown"

/-- `task.get("note", "update check")` in the WATCH branch of `dispatch`. -/
def dispatch_note (t : TaskD) : String := t.note.getD "update check"

/-- **C10.** The pending entry stored by `TaskQueue.enqueue` holds exactly the
fields `id`, `type`, `target`, `priority`, `impact`, `category`, `created_at`;
all payload and lifecycle fields are absent, so the payload reads in
`Orchestrator.dispatch` on a claimed task always yield the defaults. -/
theorem C10_enqueue_discards_payload (gid : String) (now : ℕ) (t : TaskD)
    (q : QueueState) (now2 : ℕ) :
    (TaskQueue.enqueue gid now t q).pending = q.pending ++
      [{ id := some (match t.id with
            | some s => if s = "" then gid else s
            | none => gid)
         type := t.type
         target := t.target
         priority := some (t.priority.getD "normal")
         impact := some (t.impact.getD "normal")
         category := some (t.category.getD "muscle")
         createdAt := some (match t.createdAt with
            | some c => if c = 0 then now else c
            | none => now)
         startedAt := none, completedAt := none, result := none
         scenario := none, package := none, note := none }] ∧
    dispatch_scenario { TaskQueue.enqueue_record gid now t with startedAt := some now2 }
      = "dependency_corruption" ∧
    dispatch_package { TaskQueue.enqueue_record gid now t with startedAt := some now2 }
      = "unknown" ∧
    dispatch_note { TaskQueue.enqueue_record gid now t with startedAt := some now2 }
      = "update check" :=
  ⟨rfl, rfl, rfl, rfl⟩

/-- **C5 (round trip).** `enqueue`, then `pop_by_id` of the stored id, then
`complete`: the task ends up absent from pending and in-progress, exactly once
in completed, with its result set and completion stamp `≥` start stamp. -/
theorem C5_enqueue_claim_complete (q : QueueState) (t : TaskD) (gid : String)
    (t0 t1 t2 : ℕ) (code sid : String)
    (hsid : (TaskQueue.enqueue_record gid t0 t).id = some sid)
    (hne : sid ≠ "")
    (hp : ∀ u ∈ q.pending, u.id ≠ some sid)
    (hip : ∀ u ∈ q.inProgress, u.id ≠ some sid)
    (hc : ∀ u ∈ q.completed, u.id ≠ some sid)
    (ht : t1 ≤ t2) :
    TaskQueue.pop_by_id t1 sid (TaskQueue.enqueue gid t0 t q) =
      (some { TaskQueue.enqueue_record gid t0 t with startedAt := some t1 },
       { pending := q.pending
         inProgress := q.inProgress ++
           [{ TaskQueue.enqueue_record gid t0 t with startedAt := some t1 }]
         completed := q.completed }) ∧
    TaskQueue.complete t2
        { TaskQueue.enqueue_record gid t0 t with startedAt := some t1 } code
        { pending := q.pending
          inProgress := q.inProgress ++
            [{ TaskQueue.enqueue_record gid t0 t with startedAt := some t1 }]
          completed := q.completed } =
      { pending := q.pending
        inProgress := q.inProgress
        completed := q.completed ++
          [{ TaskQueue.enqueue_record gid t0 t with
              startedAt := some t1, completedAt := some t2, result := some code }] } ∧
    count_id sid q.pending = 0 ∧
    count_id sid q.inProgress = 0 ∧
    count_id sid (q.completed ++
      [{ TaskQueue.enqueue_record gid t0 t with
          startedAt := some t1, completedAt := some t2, result := some code }]) = 1 ∧
    t1 ≤ t2 := by
  set rec := TaskQueue.enqueue_record gid t0 t with hrec
  have hfind : q.pending.find? (fun u => u.id == some sid) = none := by
    apply List.find?_eq_none.mpr
    intro x hx
    simp [hp x hx]
  have hfilter : q.pending.filter (fun u => u.id != some sid) = q.pending := by
    apply List.filter_eq_self.mpr
    intro x hx
    simp [hp x hx]
  have hfip : q.inProgress.filter (fun u => u.id != some sid) = q.inProgress := by
    apply List.filter_eq_self.mpr
    intro x hx
    simp [hip x hx]
  refine ⟨?_, ?_, ?_, ?_, ?_, ht⟩
  · unfold TaskQueue.pop_by_id TaskQueue.enqueue
    rw [if_neg hne]
    rw [show (q.pending ++ [rec]).find? (fun u => u.id == some sid) = some rec by
      rw [find_append_none _ q.pending [rec] (fun x hx => by simp [hp x hx])]
      simp [List.find?, hsid]]
    simp only [List.filter_append, hfilter]
    rw [show [rec].filter (fun u => u.id != some sid) = [] by simp [hsid]]
    simp
  · unfold TaskQueue.complete
    simp only [List.filter_append]
    rw [show ({ rec with startedAt := some t1 } : TaskD).id = some sid from hsid]
    rw [hfip]
    simp
  · unfold count_id
    rw [show q.pending.filter (fun u => u.id == some sid) = [] by
      apply List.filter_eq_nil_iff.mpr
      intro x hx
      simp [hp x hx]]
    rfl
  · unfold count_id
    rw [show q.inProgress.filter (fun u => u.id == some sid) = [] by
      apply List.filter_eq_nil_iff.mpr
      intro x hx
      simp [hip x hx]]
    rfl
  · unfold count_id
    rw [List.filter_append]
    rw [show q.completed.filter (fun u => u.id == some sid) = [] by
      apply List.filter_eq_nil_iff.mpr
      intro x hx
      simp [hc x hx]]
    simp [hsid]

/-- Witness for C5: the round trip on a concrete task through an empty queue. -/
theorem C5_enqueue_claim_complete_witness :
    TaskQueue.pop_by_id 1 "g"
        (TaskQueue.enqueue "g" 0 { type := some "REPAIR", target := some "r" }
          { pending := [], inProgress := [], completed := [] }) =
      (some { TaskQueue.enqueue_record "g" 0
                { type := some "REPAIR", target := some "r" } with
              startedAt := some 1 },
       { pending := []
         inProgress := [{ TaskQueue.enqueue_record "g" 0
            { type := some "REPAIR", target := some "r" } with startedAt := some 1 }]
         completed := [] }) :=
  (C5_enqueue_claim_complete
    { pending := [], inProgress := [], completed := [] }
    { type := some "REPAIR", target := some "r" } "g" 0 1 2 "done" "g"
    rfl (by decide)
    (fun u hu => absurd hu (List.not_mem_nil u))
    (fun u hu => absurd hu (List.not_mem_nil u))
    (fun u hu => absurd hu (List.not_mem_nil u))
    (by decide)).1

/-! ## agents/core/cortex.py — CortexFilter -/

/-- One audit entry of `war-room/data/cortex_log.json` (`CortexFilter.evaluate`).
The dict key `"alignment"` (a display string) is `alignmentNote` here, to keep
it apart from the numeric alignment score. -/
structure CortexEntry where
  taskId : Option String
  taskType : String
  target : String
  consultation : String
  simulation : String
  alignmentNote : String
  score : ℤ
  createdAt : ℕ
deriving DecidableEq, Repr

namespace CortexFilter

/-- `CortexFilter.evaluate`: the pure scoring part (the audit entry built from
a task and the current metrics). -/
def evaluate (now : ℕ) (task : TaskD) (m : AgentMemory.Metrics) : CortexEntry :=
  let taskType := pyUpper (pyOrS task.type "unknown")
  let target := task.target.getD "unknown"
  let category := pyLower (pyOrS task.category "muscle")
  let rsi := m.rsi
  let recent := m.opsWindow
  let seenBefore : Bool := ¬ recent.isEmpty
  let chaosRisk : Bool := (taskType == "CHAOS") && decide (rsi < 90)
  let alignment : ℤ := if category = "unicorn" then 8
    else if category = "muscle" then 5 else 2
  let riskPenalty : ℤ := if chaosRisk then 2 else 0
  let depthScore := max 1 (min 10 (alignment - riskPenalty))
  { taskId := task.id
    taskType := taskType
    target := target
    consultation := if seenBefore then "similar task seen" else "no prior match"
    simulation := if chaosRisk then "chaos risk" else "stable impact"
    alignmentNote := "category=" ++ category
    score := depthScore
    createdAt := now }

/-- The audit-log append in `CortexFilter.evaluate`: most-recent-first,
capped at 50 entries. -/
def append_entry (log : List CortexEntry) (e : CortexEntry) : List CortexEntry :=
  (e :: log).take 50

end CortexFilter

/-- **C7 (amended).** The depth score of `CortexFilter.evaluate` is
`clamp(alignment − penalty, 1, 10)` with alignment 8/5/2 for
unicorn/muscle/other, where a *missing or empty* category defaults to muscle
but any other unrecognized category scores 2 (like archive); the penalty is 2
exactly when the task type is CHAOS and RSI < 90; the score is always in
`[1, 10]`. -/
theorem C7_cortex_score (now : ℕ) (task : TaskD) (m : AgentMemory.Metrics) :
    (CortexFilter.evaluate now task m).score =
      max 1 (min 10
        ((if pyLower (pyOrS task.category "muscle") = "unicorn" then (8 : ℤ)
          else if pyLower (pyOrS task.category "muscle") = "muscle" then 5 else 2) -
         (if pyUpper (pyOrS task.type "unknown") = "CHAOS" ∧ m.rsi < 90
          then 2 else 0))) ∧
    ((task.category = none ∨ task.category = some "") →
      (CortexFilter.evaluate now task m).score =
        max 1 (min 10 ((5 : ℤ) -
          (if pyUpper (pyOrS task.type "unknown") = "CHAOS" ∧ m.rsi < 90
           then 2 else 0)))) ∧
    1 ≤ (CortexFilter.evaluate now task m).score ∧
    (CortexFilter.evaluate now task m).score ≤ 10 := by
  have hform : (CortexFilter.evaluate now task m).score =
      max 1 (min 10
        ((if pyLower (pyOrS task.category "muscle") = "unicorn" then (8 : ℤ)
          else if pyLower (pyOrS task.category "muscle") = "muscle" then 5 else 2) -
         (if pyUpper (pyOrS task.type "unknown") = "CHAOS" ∧ m.rsi < 90
          then 2 else 0))) := by
    show max 1 (min 10 _) = max 1 (min 10 _)
    have hpen : ((pyUpper (pyOrS task.type "unknown") == "CHAOS" &&
        decide (m.rsi < 90)) = true)
        ↔ (pyUpper (pyOrS task.type "unknown") = "CHAOS" ∧ m.rsi < 90) := by
      simp [Bool.and_eq_true, beq_iff_eq]
    rw [if_congr hpen rfl rfl]
  refine ⟨hform, ?_, ?_, ?_⟩
  · intro hcat
    rw [hform]
    have : pyLower (pyOrS task.category "muscle") = "muscle" := by
      rcases hcat with h | h <;> rw [h] <;> rfl
    rw [this]
    simp [show ("muscle" : String) ≠ "unicorn" from by decide]
  · rw [hform]
    exact le_max_left 1 _
  · rw [hform]
    exact max_le (by norm_num) (min_le_left 10 _)

/-- A metrics snapshot with RSI 98 (stable system, no panic history). -/
def metricsRsi98 : AgentMemory.Metrics :=
  { repairs := 0, totalTime := 0, mttr := 0, rsi := 98, operations := 0
    opsWindow := [], panicCount := 0, panicResolved := 0, panicStatus := false
    panicReason := none, panicAt := none }

/-- **C7 counterexample.** A *present but unrecognized* category
(`"experimental"`) is scored 2 (like archive), not 5 (muscle) as the claim's
"unknown category treated as muscle" would require. -/
theorem C7_cortex_score_counterexample :
    (CortexFilter.evaluate 0
      { id := some "t1", type := some "REPAIR", target := some "r"
        category := some "experimental" } metricsRsi98).score = 2 ∧
    ((2 : ℤ) ≠ max 1 (min 10 ((5 : ℤ) - 0))) := by
  constructor
  · decide
  · decide

/-! ## agents/orchestrator.py — allowlist gate (`Orchestrator._is_allowed`) -/

/-- The state of `war-room/data/allowlist.json`: missing file, unparseable
file, or a parsed `"repos"` list. -/
inductive AllowFile where
  | missing : AllowFile
  | corrupt : AllowFile
  | present (repos : List String) : AllowFile
deriving DecidableEq, Repr

/-- `Orchestrator._is_allowed`: exact / prefix-wildcard / suffix-wildcard
matching; a missing file or an empty list permits everything; an unreadable
file permits nothing. -/
def is_allowed (af : AllowFile) (target : String) : Bool :=
  match af with
  | .missing => true
  | .corrupt => false
  | .present allowed =>
    if allowed.isEmpty then true
    else allowed.any (fun rule0 =>
      let rule := pyStrip rule0
      if rule = "" then false
      else
        (pyEndsWith rule "*" && pyStartsWith target (pyDropLast rule)) ||
        (pyStartsWith rule "*" && pyEndsWith target (pyDropFirst rule)) ||
        (target == rule))

/-- **C6.** The allowlist check accepts a target iff the allowlist is absent
or empty, or some non-blank rule matches exactly, by prefix wildcard, or by
suffix wildcard — the two wildcard tests applied independently;
and the three concrete examples of the spec hold. -/
theorem C6_allowlist_spec (af : AllowFile) (target : String) :
    (is_allowed af target = true ↔
      af = .missing ∨ af = .present [] ∨
      ∃ rules rule, af = .present rules ∧ rule ∈ rules ∧ pyStrip rule ≠ "" ∧
        ((pyEndsWith (pyStrip rule) "*" = true ∧
            pyStartsWith target (pyDropLast (pyStrip rule)) = true) ∨
         (pyStartsWith (pyStrip rule) "*" = true ∧
            pyEndsWith target (pyDropFirst (pyStrip rule)) = true) ∨
         target = pyStrip rule)) ∧
    is_allowed (.present ["ai-ulu/*", "*-QA"]) "ai-ulu/core" = true ∧
    is_allowed (.present ["ai-ulu/*", "*-QA"]) "internal-QA" = true ∧
    is_allowed (.present ["ai-ulu/*", "*-QA"]) "other/repo" = false := by
  refine ⟨?_, by decide, by decide, by decide⟩
  cases af with
  | missing => simp [is_allowed]
  | corrupt => simp [is_allowed]
  | present rules =>
    cases rules with
    | nil => simp [is_allowed]
    | cons a as =>
      simp only [is_allowed]
      rw [show (a :: as).isEmpty = false from rfl]
      simp only [Bool.false_eq_true, if_false]
      constructor
      · intro h
        rw [List.any_eq_true] at h
        obtain ⟨r, hr, hfr⟩ := h
        refine Or.inr (Or.inr ⟨a :: as, r, rfl, hr, ?_⟩)
        by_cases hs : pyStrip r = ""
        · simp [hs] at hfr
        · rw [if_neg hs] at hfr
          refine ⟨hs, ?_⟩
          simpa [Bool.or_eq_true, Bool.and_eq_true, beq_iff_eq, or_assoc] using hfr
      · rintro (h | h | ⟨rules, r, heq, hr, hs, hm⟩)
        · cases h
        · simp at h
        · injection heq with he
          subst he
          rw [List.any_eq_true]
          refine ⟨r, hr, ?_⟩
          rw [if_neg hs]
          simpa [Bool.or_eq_true, Bool.and_eq_true, beq_iff_eq, or_assoc] using hm

/-! ## Storage recovery — `TaskQueue._read` / `CortexFilter._read`

Both stores guard `json.load` with
`except (OSError, JSONDecodeError): self._ensure_storage(); return json.load(...)`,
where `_ensure_storage` writes the seed *only when the file does not exist*. -/

/-- The on-disk state of a JSON store. -/
inductive StoreFile (α : Type) where
  | missing : StoreFile α
  | corrupt : StoreFile α
  | valid (data : α) : StoreFile α
deriving DecidableEq, Repr

/-- A single `json.load` attempt: raises (`Except.error`) unless the file
exists and parses. -/
def load_json {α : Type} : StoreFile α → Except Unit α
  | .valid d => .ok d
  | _ => .error ()

/-- `_ensure_storage`: write the seed state only if the file does not exist. -/
def ensure_storage {α : Type} (seed : α) : StoreFile α → StoreFile α
  | .missing => .valid seed
  | f => f

/-- The `_read` recovery pattern shared by `TaskQueue._read` and
`CortexFilter._read`: try to load; on failure run `_ensure_storage` and load
again (this second load is *outside* any handler). -/
def read_store {α : Type} (seed : α) (f : StoreFile α) : Except Unit α :=
  match load_json f with
  | .ok d => .ok d
  | .error _ => load_json (ensure_storage seed f)

/-- `TaskQueue._read` over the queue seed `{"pending":[],"in_progress":[],"completed":[]}`. -/
def TaskQueue.read (f : StoreFile QueueState) : Except Unit QueueState :=
  read_store { pending := [], inProgress := [], completed := [] } f

/-- `CortexFilter._read` over the log seed `{"entries":[]}`. -/
def CortexFilter.read (f : StoreFile (List CortexEntry)) :
    Except Unit (List CortexEntry) :=
  read_store ([] : List CortexEntry) f

/-- **C9 (code bug).** A *missing* store file is silently re-seeded, but an
*existing, unparseable* file is **not**: `_ensure_storage` skips existing
files, so the retried `json.load` raises again — for the task queue and the
cortex log alike, contradicting the claimed silent reinitialization. -/
theorem C9_corrupt_store_raises :
    TaskQueue.read .corrupt = .error () ∧
    CortexFilter.read .corrupt = .error () ∧
    TaskQueue.read .missing =
      .ok { pending := [], inProgress := [], completed := [] } ∧
    CortexFilter.read .missing = .ok [] :=
  ⟨rfl, rfl, rfl, rfl⟩

/-! ## agents/orchestrator.py — policy resolution and task scoring -/

/-- A per-repository policy document entry
(`policy["repositories"][target]`); `none` marks an absent key. -/
structure RepoPolicy where
  klass : Option String := none
  priorityWeight : Option ℚ := none
  allowedAgents : List String := []
  chaosAllowed : Option Bool := none
deriving DecidableEq, Repr

/-- The parsed `war-room/data/policy.json` (an unreadable or missing file
yields the all-defaults document `{}`). -/
structure GlobalPolicy where
  repositories : List (String × RepoPolicy) := []
  prioritizeUnicorn : Bool := false
  deferChaosWhenRsiLow : Bool := false
  rsiPauseChaosBelow : ℚ := 95
  autoClassify : Bool := false
  allowIdleMuscleTasks : Bool := false
  idleTasks : List TaskD := []
deriving DecidableEq, Repr

/-- Python `target.split("/", 1)[1]`: the part after the first slash, or
`none` when the target contains no slash. -/
def afterFirstSlash (s : String) : Option String :=
  match s.data.dropWhile (fun c => c ≠ '/') with
  | [] => none
  | _ :: rest => some ⟨rest⟩

namespace Orchestrator

/-- `Orchestrator._policy_for_repo`: exact key match, then suffix match on
`/name` for targets of the form `org/name`, then the synthesized default. -/
def policy_for_repo (policy : GlobalPolicy) (target : String) : RepoPolicy :=
  match policy.repositories.find? (fun kv => kv.1 == target) with
  | some kv => kv.2
  | none =>
    let byName :=
      match afterFirstSlash target with
      | some name =>
        policy.repositories.find?
          (fun kv : String × RepoPolicy => pyEndsWith kv.1 ("/" ++ name))
      | none => none
    match byName with
    | some kv => kv.2
    | none =>
      { klass := some "muscle", priorityWeight := some 1
        allowedAgents := [], chaosAllowed := some true }

/-- `Orchestrator._is_agent_allowed`. -/
def is_agent_allowed (policy : GlobalPolicy) (target taskType : String) : Bool :=
  let repoPolicy := policy_for_repo policy target
  let allowed := repoPolicy.allowedAgents.map pyUpper
  if allowed.isEmpty then true else allowed.contains (pyUpper taskType)

/-- `Orchestrator._score_task`: the composite score
`int(weight * (base(priority) + base(impact) + unicornBonus − chaosDeferPenalty
− chaosDisabledPenalty))`. -/
def score_task (task : TaskD) (policy : GlobalPolicy) (rsi : ℚ) : ℤ :=
  let priority := pyLower (pyOrS task.priority "normal")
  let impact := pyLower (pyOrS task.impact "normal")
  let taskType := pyUpper (pyOrS task.type "")
  let target := task.target.getD "unknown"
  let repoPolicy := policy_for_repo policy target
  let category := pyLower (pyOrS repoPolicy.klass (pyOrS task.category "muscle"))
  let weight := repoPolicy.priorityWeight.getD 1
  let score : ℤ :=
    (if priority = "high" then 100 else if priority = "normal" then 10 else 1)
    + (if impact = "high" then 50 else if impact = "normal" then 10 else 1)
    + (if policy.prioritizeUnicorn ∧ category = "unicorn" then 100 else 0)
    - (if policy.deferChaosWhenRsiLow ∧ taskType = "CHAOS" ∧
          rsi < policy.rsiPauseChaosBelow then 200 else 0)
    - (if repoPolicy.chaosAllowed = some false ∧ taskType = "CHAOS" then 500 else 0)
  pyInt ((score : ℚ) * weight)

/-- The selection of `Orchestrator._pick_next_task`: Python's stable sort by
descending score followed by taking the head returns the earliest pending
task with maximal score. -/
def pick_best (f : TaskD → ℤ) : List TaskD → Option TaskD
  | [] => none
  | t :: ts =>
    match pick_best f ts with
    | none => some t
    | some b => if f b > f t then some b else some t

/-- `Orchestrator._pick_next_task` on a queue snapshot. -/
def pick_next_task (policy : GlobalPolicy) (rsi : ℚ) (q : QueueState) :
    Option TaskD :=
  pick_best (fun t => score_task t policy rsi) q.pending

end Orchestrator


theorem pick_best_spec (f : TaskD → ℤ) (l : List TaskD) (hne : l ≠ []) :
    ∃ l₁ t l₂, l = l₁ ++ t :: l₂ ∧ Orchestrator.pick_best f l = some t ∧
      (∀ u ∈ l, f u ≤ f t) ∧ (∀ u ∈ l₁, f u < f t) := by
  induction l with
  | nil => exact absurd rfl hne
  | cons a as ih =>
    rcases eq_or_ne as [] with h | h
    · subst h
      refine ⟨[], a, [], rfl, rfl, ?_, by simp⟩
      intro u hu
      rw [List.mem_singleton] at hu
      exact hu ▸ le_refl _
    · obtain ⟨l₁, t, l₂, hsplit, hpick, hmax, hlt⟩ := ih h
      by_cases hgt : f t > f a
      · refine ⟨a :: l₁, t, l₂, by rw [hsplit]; rfl, ?_, ?_, ?_⟩
        · show Orchestrator.pick_best f (a :: as) = some t
          simp only [Orchestrator.pick_best, hpick]
          rw [if_pos hgt]
        · intro u hu
          rcases List.mem_cons.mp hu with hh | hh
          · exact hh ▸ le_of_lt hgt
          · exact hmax u hh
        · intro u hu
          rcases List.mem_cons.mp hu with hh | hh
          · exact hh ▸ hgt
          · exact hlt u hh
      · refine ⟨[], a, as, rfl, ?_, ?_, by simp⟩
        · show Orchestrator.pick_best f (a :: as) = some a
          simp only [Orchestrator.pick_best, hpick]
          rw [if_neg hgt]
        · intro u hu
          rcases List.mem_cons.mp hu with hh | hh
          · exact hh ▸ le_refl _
          · exact le_trans (hmax u hh) (not_lt.mp hgt)

theorem pyInt_lt_add_one (q : ℚ) : (pyInt q : ℚ) < q + 1 := by
  unfold pyInt
  split
  · have := Int.floor_le q
    push_cast
    linarith
  · have := Int.ceil_lt_add_one q
    push_cast at this ⊢
    linarith

theorem sub_one_lt_pyInt (q : ℚ) : q - 1 < (pyInt q : ℚ) := by
  unfold pyInt
  split
  · have := Int.sub_one_lt_floor q
    push_cast at this ⊢
    linarith
  · have := Int.le_ceil q
    push_cast at this ⊢
    linarith

theorem pyInt_lt_of_gap {a b : ℚ} (h : a + 2 < b) : pyInt a < pyInt b := by
  have h1 := pyInt_lt_add_one a
  have h2 := sub_one_lt_pyInt b
  have : (pyInt a : ℚ) < (pyInt b : ℚ) := by linarith
  exact_mod_cast this

/-- The claim's composite-score formula (spec §4.5 step 4), stated from the
spec's words: `weight * (base(priority) + base(impact) + unicornBonus −
chaosDeferPenalty − chaosDisabledPenalty)`, before the `int()` truncation
that the source applies. -/
def claim_score (task : TaskD) (policy : GlobalPolicy) (rsi : ℚ) : ℚ :=
  let repoPolicy := Orchestrator.policy_for_repo policy (task.target.getD "unknown")
  let weight := repoPolicy.priorityWeight.getD 1
  let priority := pyLower (pyOrS task.priority "normal")
  let impact := pyLower (pyOrS task.impact "normal")
  let taskType := pyUpper (pyOrS task.type "")
  let category := pyLower (pyOrS repoPolicy.klass (pyOrS task.category "muscle"))
  let basePriority : ℤ := if priority = "high" then 100
    else if priority = "normal" then 10 else 1
  let baseImpact : ℤ := if impact = "high" then 50
    else if impact = "normal" then 10 else 1
  let unicornBonus : ℤ :=
    if policy.prioritizeUnicorn ∧ category = "unicorn" then 100 else 0
  let chaosDefer : ℤ := if policy.deferChaosWhenRsiLow ∧ taskType = "CHAOS" ∧
      rsi < policy.rsiPauseChaosBelow then 200 else 0
  let chaosDisabled : ℤ :=
    if repoPolicy.chaosAllowed = some false ∧ taskType = "CHAOS" then 500 else 0
  weight * ((basePriority + baseImpact + unicornBonus - chaosDefer - chaosDisabled : ℤ) : ℚ)

/-- **C2 (amended).** The source's `_score_task` equals the claim's
composite score truncated by `int()`; on a non-empty pending bucket
`_pick_next_task` selects the earliest pending task of maximal score (the
tie-break of Python's stable descending sort); and under a common resolved
policy weight of at least 1, a pending `priority=high` task is never passed
over in favor of a lower-priority pending task with all other scoring
factors equal (same target, impact, type and category hint). -/
theorem C2_composite_selection (policy : GlobalPolicy) (rsi : ℚ)
    (q : QueueState) (task tH tL : TaskD) :
    (Orchestrator.score_task task policy rsi =
      pyInt (claim_score task policy rsi)) ∧
    (q.pending ≠ [] → ∃ l₁ t l₂, q.pending = l₁ ++ t :: l₂ ∧
      Orchestrator.pick_next_task policy rsi q = some t ∧
      (∀ u ∈ q.pending, Orchestrator.score_task u policy rsi ≤
        Orchestrator.score_task t policy rsi) ∧
      (∀ u ∈ l₁, Orchestrator.score_task u policy rsi <
        Orchestrator.score_task t policy rsi)) ∧
    (tH ∈ q.pending →
      pyLower (pyOrS tH.priority "normal") = "high" →
      pyLower (pyOrS tL.priority "normal") ≠ "high" →
      tL.impact = tH.impact → tL.type = tH.type → tL.target = tH.target →
      tL.category = tH.category →
      1 ≤ (Orchestrator.policy_for_repo policy
        (tH.target.getD "unknown")).priorityWeight.getD 1 →
      Orchestrator.pick_next_task policy rsi q ≠ some tL) := by
  refine ⟨?_, ?_, ?_⟩
  · unfold Orchestrator.score_task claim_score
    push_cast
    ring
  · exact fun hne =>
      pick_best_spec (fun t => Orchestrator.score_task t policy rsi) q.pending hne
  · intro hH hpr hprL himp hty htar hcat hw
    have hkey : Orchestrator.score_task tL policy rsi <
        Orchestrator.score_task tH policy rsi := by
      simp only [Orchestrator.score_task]
      rw [himp, hty, htar, hcat, hpr]
      set w := (Orchestrator.policy_for_repo policy
        (tH.target.getD "unknown")).priorityWeight.getD 1 with hwdef
      set iv : ℤ := (if pyLower (pyOrS tH.impact "normal") = "high" then 50
        else if pyLower (pyOrS tH.impact "normal") = "normal" then 10 else 1) with hiv
      set bv : ℤ := (if policy.prioritizeUnicorn ∧
        pyLower (pyOrS (Orchestrator.policy_for_repo policy
          (tH.target.getD "unknown")).klass (pyOrS tH.category "muscle")) = "unicorn"
        then 100 else 0) with hbv
      set d1 : ℤ := (if policy.deferChaosWhenRsiLow ∧
        pyUpper (pyOrS tH.type "") = "CHAOS" ∧ rsi < policy.rsiPauseChaosBelow
        then 200 else 0) with hd1
      set d2 : ℤ := (if (Orchestrator.policy_for_repo policy
          (tH.target.getD "unknown")).chaosAllowed = some false ∧
        pyUpper (pyOrS tH.type "") = "CHAOS" then 500 else 0) with hd2
      set pv : ℤ := (if pyLower (pyOrS tL.priority "normal") = "high" then 100
        else if pyLower (pyOrS tL.priority "normal") = "normal" then 10 else 1)
        with hpv
      have hpv10 : pv ≤ 10 := by
        rw [hpv, if_neg hprL]
        split
        · exact le_refl 10
        · omega
      rw [show (if ("high" : String) = "high" then (100 : ℤ)
        else if ("high" : String) = "normal" then 10 else 1) = 100 from if_pos rfl]
      apply pyInt_lt_of_gap
      have hL : ((pv + iv + bv - d1 - d2 : ℤ) : ℚ) ≤
          ((100 + iv + bv - d1 - d2 : ℤ) : ℚ) - 90 := by
        push_cast
        have : (pv : ℚ) ≤ 10 := by exact_mod_cast hpv10
        linarith
      have hw0 : (0 : ℚ) < w := lt_of_lt_of_le one_pos hw
      calc ((pv + iv + bv - d1 - d2 : ℤ) : ℚ) * w + 2
          ≤ (((100 + iv + bv - d1 - d2 : ℤ) : ℚ) - 90) * w + 2 := by
            have := mul_le_mul_of_nonneg_right hL (le_of_lt hw0)
            linarith
        _ = ((100 + iv + bv - d1 - d2 : ℤ) : ℚ) * w - 90 * w + 2 := by ring
        _ ≤ ((100 + iv + bv - d1 - d2 : ℤ) : ℚ) * w - 90 * 1 + 2 := by
            have : (90 : ℚ) * 1 ≤ 90 * w := by linarith
            linarith
        _ < ((100 + iv + bv - d1 - d2 : ℤ) : ℚ) * w := by linarith
    intro hpick
    have hne : q.pending ≠ [] := by
      intro h
      rw [h] at hH
      exact List.not_mem_nil tH hH
    obtain ⟨l₁, t, l₂, hsplit, hpick2, hmax, hlt⟩ :=
      pick_best_spec (fun u => Orchestrator.score_task u policy rsi) q.pending hne
    rw [Orchestrator.pick_next_task] at hpick
    rw [hpick] at hpick2
    have ht : some tL = some t := hpick2
    have htL : tL = t := Option.some.injEq _ _ ▸ ht
    have := hmax tH hH
    rw [← htL] at this
    exact absurd (lt_of_lt_of_le hkey this) (lt_irrefl _)

/-- A high-priority task for the C2 witness. -/
def dHigh : TaskD :=
  { id := some "h", type := some "REPAIR", target := some "r"
    priority := some "high" }

/-- A low-priority task for the C2 witness, all other factors equal. -/
def dLow : TaskD :=
  { id := some "l", type := some "REPAIR", target := some "r"
    priority := some "low" }

/-- Witness for C2: under the default weight 1.0 the low-priority task is
never selected while the high-priority one is pending. -/
theorem C2_composite_selection_witness :
    Orchestrator.pick_next_task { } 50
      { pending := [dHigh, dLow], inProgress := [], completed := [] } ≠
      some dLow :=
  (C2_composite_selection { } 50
    { pending := [dHigh, dLow], inProgress := [], completed := [] }
    dHigh dHigh dLow).2.2
    (by decide) rfl (by decide) rfl rfl rfl rfl (le_refl 1)

/-- Policy for the C2 counterexample: one repository with a small but
positive priority weight (0.001). -/
def cxPolicy : GlobalPolicy :=
  { repositories := [("ai-ulu/app", { priorityWeight := some (1/1000) })] }

/-- A normal-priority task, enqueued first. -/
def cxLow : TaskD :=
  { id := some "low", type := some "REPAIR", target := some "ai-ulu/app"
    priority := some "normal", impact := some "normal" }

/-- A high-priority task, enqueued second, all other factors equal. -/
def cxHigh : TaskD :=
  { id := some "high", type := some "REPAIR", target := some "ai-ulu/app"
    priority := some "high", impact := some "normal" }

/-- **C2 counterexample.** Because `_score_task` truncates
`int(score * weight)`, a positive fractional weight (0.001) collapses both
scores to 0, and the earlier *normal*-priority task is selected even though a
high-priority task with the same target, impact, type and category is
pending — refuting "a priority=high task is never passed over ... under equal
policy weight with all other factors equal". -/
theorem C2_counterexample :
    Orchestrator.pick_next_task cxPolicy 50
        { pending := [cxLow, cxHigh], inProgress := [], completed := [] } =
      some cxLow ∧
    cxHigh ∈ [cxLow, cxHigh] ∧
    pyLower (pyOrS cxHigh.priority "normal") = "high" ∧
    pyLower (pyOrS cxLow.priority "normal") ≠ "high" ∧
    cxLow.target = cxHigh.target ∧ cxLow.impact = cxHigh.impact ∧
    cxLow.type = cxHigh.type ∧ cxLow.category = cxHigh.category ∧
    cxLow ≠ cxHigh := by
  have hL : Orchestrator.score_task cxLow cxPolicy 50 = 0 := by
    show pyInt ((20 : ℤ) * ((1 : ℚ)/1000)) = 0
    norm_num [pyInt]
  have hH : Orchestrator.score_task cxHigh cxPolicy 50 = 0 := by
    show pyInt ((110 : ℤ) * ((1 : ℚ)/1000)) = 0
    norm_num [pyInt]
  refine ⟨?_, by decide, by decide, by decide, by decide, by decide, by decide,
    by decide, by decide⟩
  rw [show Orchestrator.pick_next_task cxPolicy 50
      { pending := [cxLow, cxHigh], inProgress := [], completed := [] } =
      if Orchestrator.score_task cxHigh cxPolicy 50 >
          Orchestrator.score_task cxLow cxPolicy 50
      then some cxHigh else some cxLow from rfl]
  rw [hL, hH]
  norm_num

/-! ## Registry, cooldown accounting, and the scheduler world -/

/-- One agent entry of `war-room/data/agent_registry.json`. -/
structure AgentCfg where
  cooldownSeconds : Option ℤ := none
  capabilities : List String := []
deriving DecidableEq, Repr

/-- `AgentRegistry.get_agent_config_for_task`: the first agent whose
capabilities contain the upper-cased task type, else the `"unknown"` default;
returns the agent id and its base cooldown. -/
def get_agent_config_for_task (registry : List (String × AgentCfg))
    (taskType : String) : String × ℤ :=
  let tt := pyUpper taskType
  match registry.find?
      (fun kv : String × AgentCfg => (kv.2.capabilities.map pyUpper).contains tt) with
  | some kv => (kv.1, kv.2.cooldownSeconds.getD 0)
  | none => ("unknown", 0)

namespace AgentMemory

/-- Modelled from the spec: `AgentMemory.get_backoff_seconds` is called by the
orchestrator but missing from `src/`; §4.4 prescribes an effective cooldown
that grows exponentially with the agent's consecutive failures. -/
def get_backoff_seconds (st : MemoryState) (agentId : String) (base : ℤ) : ℤ :=
  let failures := match st.agentStats.find?
      (fun kv : String × AgentStat => kv.1 == agentId) with
    | some kv => kv.2.consecutiveFailures
    | none => 0
  base * 2 ^ failures

/-- Modelled from the spec: `AgentMemory.can_run` is called by the
orchestrator but missing from `src/`; §4.4 prescribes comparing now against
the agent's last-run timestamp plus the effective cooldown. -/
def can_run (st : MemoryState) (agentId : String) (cooldown : ℤ) (now : ℕ) :
    Bool :=
  match st.agentStats.find?
      (fun kv : String × AgentStat => kv.1 == agentId) with
  | some kv =>
    match kv.2.lastRun with
    | some t => decide ((t : ℤ) + cooldown ≤ (now : ℤ))
    | none => true
  | none => true

/-- Modelled from the spec: `AgentMemory.record_agent_result` is called by
the orchestrator but missing from `src/`; §4.4 prescribes updating the
last-run timestamp and the consecutive-failure count (reset on success). -/
def record_agent_result (st : MemoryState) (agentId : String) (success : Bool)
    (now : ℕ) : MemoryState :=
  let prev := match st.agentStats.find?
      (fun kv : String × AgentStat => kv.1 == agentId) with
    | some kv => kv.2.consecutiveFailures
    | none => 0
  let entry : AgentStat :=
    { lastRun := some now
      consecutiveFailures := if success then 0 else prev + 1 }
  { st with agentStats :=
      ((agentId, entry) :: st.agentStats.filter
        (fun kv : String × AgentStat => kv.1 != agentId)) }

/-- Modelled from the spec: `get_last_issue` (called by
`SelfHealingAgent.heal`, missing from `src/`). -/
def get_last_issue (st : MemoryState) : Option (String × ℕ) := st.lastIssue

/-- Modelled from the spec: `clear_last_issue` (called by
`SelfHealingAgent.heal`, missing from `src/`). -/
def clear_last_issue (st : MemoryState) : MemoryState :=
  { st with lastIssue := none }

end AgentMemory

namespace BaseAgent

/-- `BaseAgent.log_activity` (base_agent.py:24): forwards `task_id=` to
`AgentMemory.record_activity` (memory.py:58), which accepts no such keyword —
so **every** call raises `TypeError` during argument binding, before the
store is touched. The raise is modelled as `Except.error ()`; the memory
argument is untouched, and the `.ok` result type documents the intended
continuation that the source never reaches. -/
def log_activity (agentName text icon : String) (st : MemoryState) :
    Except Unit MemoryState :=
  let _ := (agentName, text, icon, st)
  .error ()

/-- `BaseAgent.log_event`: delegates to `record_event`. -/
def log_event (agentName action result : String) (st : MemoryState) :
    MemoryState :=
  AgentMemory.record_event agentName action result st

/-- `BaseAgent.on_error`: set panic (edge-triggered), report an issue
externally, enqueue a SELF_HEAL task *unconditionally* (no `has_task`
deduplication), and log the failure event. `maybe_report_issue` performs
only network I/O and environment reads; it does not touch the modelled
stores. -/
def on_error (agentName action errText : String) (genId : String) (now : ℕ)
    (mem : MemoryState) (q : QueueState) : MemoryState × QueueState :=
  let reason := agentName ++ " failed during " ++ action ++ ": " ++ errText
  let m1 := AgentMemory.set_panic now true reason mem
  let q1 := TaskQueue.enqueue genId now
    { id := some genId, type := some "SELF_HEAL", target := some agentName
      priority := some "high" } q
  let m2 := log_event agentName action ("error: " ++ errText) m1
  (m2, q1)

end BaseAgent

/-! ## agents/auto_classifier.py — the CLASSIFY worker -/

/-- One repository record from `war-room/data/repos.json` as read by
`AutoClassifier._suggest_class`; `updatedDaysAgo` models the `updated_at`
age (`none` for an absent or unparseable timestamp, both of which skip the
staleness check). -/
structure RepoInfo where
  name : Option String := none
  aura : ℚ := 0
  health : Option String := none
  updatedDaysAgo : Option ℕ := none
deriving DecidableEq, Repr

/-- `AutoClassifier._suggest_class`. -/
def suggest_class (repo : RepoInfo) : String :=
  let health := pyLower (pyOrS repo.health "")
  let stale := match repo.updatedDaysAgo with
    | some d => decide (d > 180)
    | none => false
  if stale then "archive"
  else if repo.aura ≥ 90 ∧ (health = "excellent" ∨ health = "good") then "unicorn"
  else if repo.aura < 60 ∧ health = "poor" then "archive"
  else "muscle"

/-- One pending entry of `classify_queue.json`. Only the key fields the code
reads back are modelled; the cosmetic `reason` / `created_at` strings are
write-only in the source. -/
structure Proposal where
  repo : String
  currentClass : String
  suggestedClass : String
deriving DecidableEq, Repr

/-- `AutoClassifier.scan_and_propose`: propose class changes for repositories
whose suggested class differs from the current policy class, deduplicated
against the keys of the *initial* pending list; returns the proposal count
and the updated pending list. -/
def scan_and_propose (repos : List RepoInfo) (policy : GlobalPolicy)
    (pending : List Proposal) : ℕ × List Proposal :=
  let pendingKeys := pending.map (fun p => (p.repo, p.suggestedClass))
  let step := fun (acc : ℕ × List Proposal) (repo : RepoInfo) =>
    match repo.name with
    | none => acc
    | some nm =>
      if nm = "" then acc
      else
        let full := if (afterFirstSlash nm).isSome then nm else "ai-ulu/" ++ nm
        let current :=
          match policy.repositories.find?
              (fun kv : String × RepoPolicy => kv.1 == full) with
          | some kv => kv.2.klass.getD "muscle"
          | none => "muscle"
        let suggested := suggest_class repo
        if suggested = current then acc
        else if pendingKeys.contains (full, suggested) then acc
        else (acc.1 + 1, acc.2 ++
          [{ repo := full, currentClass := current, suggestedClass := suggested }])
  repos.foldl step (0, pending)

/-! ## The scheduler cycle (`Orchestrator.run_once` / `Orchestrator.dispatch`) -/

/-- The read-only environment of one scheduler cycle: the parsed policy and
allowlist documents, the agent registry, the classifier inputs, the cycle
timestamp, and the generator for task ids minted during the cycle. -/
structure Env where
  policyFile : GlobalPolicy
  allowFile : AllowFile
  registry : List (String × AgentCfg)
  repos : List RepoInfo
  now : ℕ
  freshId : ℕ → String

/-- The mutable stores touched by a scheduler cycle. -/
structure World where
  queue : QueueState
  memory : MemoryState
  cortexLog : List CortexEntry
  classifyPending : List Proposal
deriving DecidableEq

/-- The SELF_HEAL task auto-injected by `run_once` on panic. -/
def selfHealTask : TaskD :=
  { type := some "SELF_HEAL", target := some "system", priority := some "high"
    impact := some "high", category := some "unicorn" }

/-- The CLASSIFY task auto-injected by `run_once` under `auto_classify`. -/
def classifyTask : TaskD :=
  { type := some "CLASSIFY", target := some "policy", priority := some "low"
    impact := some "low", category := some "muscle" }

namespace Orchestrator

/-- Step 2 of `run_once`: inject a SELF_HEAL task when the metrics report
panic and none is outstanding (deduplication via `has_task`). -/
def panic_inject (metrics : AgentMemory.Metrics) (genId : String) (now : ℕ)
    (q : QueueState) : QueueState :=
  if metrics.panicStatus ∧ ¬ TaskQueue.has_task q "SELF_HEAL" then
    TaskQueue.enqueue genId now selfHealTask q
  else q

/-- The idle-task injection loop, drawing ids from the generator. -/
def enqueue_list (freshId : ℕ → String) (k0 : ℕ) (now : ℕ) (ts : List TaskD)
    (q : QueueState) : QueueState :=
  match ts with
  | [] => q
  | t :: rest => enqueue_list freshId (k0 + 1) now rest
      (TaskQueue.enqueue (freshId k0) now t q)

/-- Steps 2–3 of `run_once`: panic-driven, idle-time, and auto-classify task
injections. -/
def inject_phase (env : Env) (metrics : AgentMemory.Metrics) (q : QueueState) :
    QueueState :=
  let policy := env.policyFile
  let q1 := panic_inject metrics (env.freshId 0) env.now q
  let q2 := if policy.allowIdleMuscleTasks ∧ q1.pending = [] then
      enqueue_list env.freshId 1 env.now policy.idleTasks q1
    else q1
  if policy.autoClassify ∧ ¬ TaskQueue.has_task q2 "CLASSIFY" then
    TaskQueue.enqueue (env.freshId (1 + policy.idleTasks.length)) env.now
      classifyTask q2
  else q2

/-- `Orchestrator.dispatch`: route the claimed task to its worker, enforcing
cooldown and (for REPAIR) the allowlist. Every branch calls
`BaseAgent.log_activity` (directly, or through a sub-agent's inherited
`log_activity`), which always raises `TypeError`; each branch therefore
raises at its first log call, and the `Except.error` value carries the store
state written up to that point. The `.ok` continuations embed the code after
the raising call, which the source never reaches. Worker-side store effects
follow `repair_agent.py`, `chaos_monkey.py`, `watcher.py`,
`auto_classifier.py` and `self_healing_agent.py`; cooldown accounting is
modelled from the spec (§4.4); activity texts abbreviate interpolated
numbers. -/
def dispatch (env : Env) (watchRepairId : String) (w : World) (task : TaskD) :
    Except World (String × World) :=
  let taskType := pyUpper (pyOrS task.type "")
  let target := task.target.getD "unknown"
  let cfg := get_agent_config_for_task env.registry taskType
  let agentId := cfg.1
  let cooldown := AgentMemory.get_backoff_seconds w.memory agentId cfg.2
  if ¬ AgentMemory.can_run w.memory agentId cooldown env.now then
    match BaseAgent.log_activity "Orchestrator"
        ("Cooldown active for " ++ agentId) "[WAIT]" w.memory with
    | .error _ => .error w
    | .ok m => .ok ("cooldown", { w with memory := m })
  else if taskType = "REPAIR" then
    if ¬ is_allowed env.allowFile target then
      match BaseAgent.log_activity "Orchestrator"
          ("Blocked by allowlist: " ++ target) "[BLOCK]" w.memory with
      | .error _ => .error w
      | .ok m =>
        .ok ("blocked", { w with
          memory := (AgentMemory.record_agent_result m agentId false env.now) })
    else
      match BaseAgent.log_activity "RepairAgent"
          ("Detected dependency issue in " ++ target ++ ": queued repair")
          "[WARN]" w.memory with
      | .error _ => .error w
      | .ok m1 =>
        match BaseAgent.log_activity "Orchestrator"
            ("Dispatched repair to " ++ target) "[REPAIR]" m1 with
        | .error _ => .error { w with memory := m1 }
        | .ok m2 =>
          .ok ("repair_dispatched", { w with
            memory := (AgentMemory.record_agent_result m2 agentId true env.now) })
  else if taskType = "CHAOS" then
    let scenario := dispatch_scenario task
    match BaseAgent.log_activity "ChaosMonkey"
        ("Chaos run simulated: " ++ scenario ++ " on " ++ target)
        "[CHAOS]" w.memory with
    | .error _ => .error w
    | .ok m1 =>
      .ok ("chaos_simulated", { w with
        memory := (AgentMemory.record_agent_result m1 agentId true env.now) })
  else if taskType = "WATCH" then
    let package := dispatch_package task
    let note := dispatch_note task
    match BaseAgent.log_activity "Watcher"
        ("Watcher flagged " ++ package ++ " for " ++ target ++ ": " ++ note)
        "[WATCH]" w.memory with
    | .error _ => .error w
    | .ok m1 =>
      let repoPolicy := policy_for_repo env.policyFile target
      let category := repoPolicy.klass.getD "muscle"
      let q1 := TaskQueue.enqueue watchRepairId env.now
        { type := some "REPAIR", target := some target
          priority := some "normal", impact := some "normal"
          category := some category } w.queue
      .ok ("watch_dispatched",
        { w with
          queue := q1
          memory := (AgentMemory.record_agent_result m1 agentId true env.now) })
  else if taskType = "CLASSIFY" then
    let res := scan_and_propose env.repos env.policyFile w.classifyPending
    if res.1 > 0 then
      match BaseAgent.log_activity "AutoClassifier"
          "Proposed repo classifications" "[CLASSIFY]" w.memory with
      | .error _ => .error { w with classifyPending := res.2 }
      | .ok m1 =>
        match BaseAgent.log_activity "Orchestrator"
            "Auto-classifier proposed changes" "[CLASSIFY]" m1 with
        | .error _ => .error { w with classifyPending := res.2, memory := m1 }
        | .ok m2 =>
          .ok ("classify_dispatched",
            { w with
              classifyPending := res.2
              memory := (AgentMemory.record_agent_result m2 agentId true env.now) })
    else
      match BaseAgent.log_activity "Orchestrator"
          "Auto-classifier proposed changes" "[CLASSIFY]" w.memory with
      | .error _ => .error { w with classifyPending := res.2 }
      | .ok m2 =>
        .ok ("classify_dispatched",
          { w with
            classifyPending := res.2
            memory := (AgentMemory.record_agent_result m2 agentId true env.now) })
  else if taskType = "SELF_HEAL" then
    let metrics := AgentMemory.get_sync_metrics w.memory
    if ¬ metrics.panicStatus then
      match BaseAgent.log_activity "Orchestrator" "Self-heal skipped (no panic)"
          "[HEAL]" w.memory with
      | .error _ => .error w
      | .ok m1 =>
        .ok ("self_heal_skipped", { w with
          memory := (AgentMemory.record_agent_result m1 agentId true env.now) })
    else
      match BaseAgent.log_activity "SelfHealingAgent"
          "Healing process initiated" "[+]" w.memory with
      | .error _ => .error w
      | .ok m1 =>
        let m2 := AgentMemory.set_panic env.now false
          "System restored by SelfHealingAgent" m1
        let m3 := match AgentMemory.get_last_issue m2 with
          | some _ => AgentMemory.clear_last_issue m2
          | none => m2
        match BaseAgent.log_activity "Orchestrator" "Dispatched self-heal"
            "[HEAL]" m3 with
        | .error _ => .error { w with memory := m3 }
        | .ok m4 =>
          .ok ("self_heal_dispatched", { w with
            memory := (AgentMemory.record_agent_result m4 agentId true env.now) })
  else
    match BaseAgent.log_activity "Orchestrator"
        ("Unknown task type: " ++ taskType) "[WARN]" w.memory with
    | .error _ => .error w
    | .ok m1 =>
      .ok ("unknown_task", { w with
        memory := (AgentMemory.record_agent_result m1 agentId false env.now) })

/-- `Orchestrator.run_once`: one full scheduler cycle — read metrics, inject
tasks, pick and claim the best pending task, then apply the two hard
admission gates, invoke the Cortex audit, dispatch, and complete the task.
Because every `log_activity` call raises `TypeError`, a cycle that claims a
task always ends in `Except.error`, carrying the store state at the uncaught
raise: a gate-blocked claim raises at the blocked-log call (orchestrator.py
lines 231/235) before `complete`, and a gate-passing claim raises at the
Cortex-score log call (line 239) after `cortex.evaluate` has written its
audit entry but before `dispatch`. Cycles that claim nothing terminate
normally (`Except.ok`). -/
def run_once (env : Env) (w : World) : Except World World :=
  let policy := env.policyFile
  let metrics := AgentMemory.get_sync_metrics w.memory
  let rsi := metrics.rsi
  let q3 := inject_phase env metrics w.queue
  match pick_next_task policy rsi q3 with
  | none => .ok { w with queue := q3 }
  | some t =>
    match TaskQueue.pop_by_id env.now (t.id.getD "") q3 with
    | (none, q4) => .ok { w with queue := q4 }
    | (some task, q4) =>
      let w1 : World := { w with queue := q4 }
      let taskType := pyUpper (pyOrS task.type "")
      let target := task.target.getD "unknown"
      let repoPolicy := policy_for_repo policy target
      if ¬ is_agent_allowed policy target taskType then
        match BaseAgent.log_activity "Orchestrator"
            ("Policy blocked " ++ taskType ++ " on " ++ target)
            "[BLOCK]" w1.memory with
        | .error _ => .error w1
        | .ok m =>
          .ok { w1 with
            memory := m
            queue := (TaskQueue.complete env.now task "blocked_by_policy"
              w1.queue) }
      else if taskType = "CHAOS" ∧ repoPolicy.chaosAllowed = some false then
        match BaseAgent.log_activity "Orchestrator"
            ("Chaos disabled by policy for " ++ target) "[BLOCK]" w1.memory with
        | .error _ => .error w1
        | .ok m =>
          .ok { w1 with
            memory := m
            queue := (TaskQueue.complete env.now task "blocked_by_policy"
              w1.queue) }
      else
        let entry := CortexFilter.evaluate env.now task metrics
        let w2 : World := { w1 with
          cortexLog := CortexFilter.append_entry w1.cortexLog entry }
        match BaseAgent.log_activity "Orchestrator"
            ("Cortex score for " ++ taskType ++ " on " ++ target)
            "[CORTEX]" w2.memory with
        | .error _ => .error w2
        | .ok m =>
          let w2ok : World := { w2 with memory := m }
          let archStep : Except World World :=
            if repoPolicy.klass = some "archive" then
              match BaseAgent.log_activity "Orchestrator"
                  ("Archive repo flagged for migration: " ++ target)
                  "[ARCHIVE]" w2ok.memory with
              | .error _ => .error w2ok
              | .ok m2 => .ok { w2ok with memory := m2 }
            else .ok w2ok
          match archStep with
          | .error e => .error e
          | .ok w3 =>
            match dispatch env (env.freshId 1000) w3 task with
            | .error e => .error e
            | .ok res =>
              .ok { res.2 with
                queue := (TaskQueue.complete env.now task res.1 res.2.queue) }

end Orchestrator

/-- Number of SELF_HEAL tasks across the pending and in-progress buckets. -/
def count_self_heal (q : QueueState) : ℕ :=
  ((q.pending ++ q.inProgress).filter
    (fun t => pyUpper (t.type.getD "") == "SELF_HEAL")).length

/-- **C4 (amended).** `set_panic` is edge-triggered: `panic_count` increments
only on a false→true transition and `panic_resolved` only on a true→false
transition; and the *scheduler's* panic-driven injection is deduplicated via
`has_task`, never raising the SELF_HEAL count in pending+in-progress above
`max 1 (previous count)`. (`BaseAgent.on_error`, by contrast, enqueues
unconditionally — see the counterexample.) -/
theorem C4_panic_edge_and_dedup (st : MemoryState) (now : ℕ) (reason : String)
    (s : Bool) (metrics : AgentMemory.Metrics) (genId : String) (q : QueueState) :
    ((AgentMemory.set_panic now s reason st).panicCount =
      if s = true ∧ st.panicStatus = false then st.panicCount + 1
      else st.panicCount) ∧
    ((AgentMemory.set_panic now s reason st).panicResolved =
      if s = false ∧ st.panicStatus = true then st.panicResolved + 1
      else st.panicResolved) ∧
    count_self_heal (Orchestrator.panic_inject metrics genId now q) ≤
      max 1 (count_self_heal q) := by
  refine ⟨?_, ?_, ?_⟩
  · cases s <;> cases h : st.panicStatus <;>
      simp [AgentMemory.set_panic, h]
  · cases s <;> cases h : st.panicStatus <;>
      simp [AgentMemory.set_panic, h]
  · unfold Orchestrator.panic_inject
    split
    · rename_i hcond
      have hfalse : TaskQueue.has_task q "SELF_HEAL" = false :=
        Bool.eq_false_iff.mpr (fun habs => hcond.2 habs)
      have hup : pyUpper "SELF_HEAL" = "SELF_HEAL" := by decide
      have hz : (q.pending ++ q.inProgress).filter
          (fun t => pyUpper (t.type.getD "") == "SELF_HEAL") = [] := by
        rw [List.filter_eq_nil_iff]
        intro t ht
        have := List.any_eq_false.mp
          (by unfold TaskQueue.has_task at hfalse; rw [hup] at hfalse;
              exact hfalse) t ht
        simpa using this
      rw [List.filter_append, List.append_eq_nil] at hz
      unfold count_self_heal TaskQueue.enqueue
      simp only [List.filter_append, hz.1, hz.2]
      have hle : (List.filter (fun t => pyUpper (t.type.getD "") == "SELF_HEAL")
          [TaskQueue.enqueue_record genId now selfHealTask]).length ≤ 1 :=
        List.length_filter_le _ _
      simpa using hle
    · exact le_max_right 1 _

/-- Witness for C4 at concrete inputs: a second `set_panic(True, ...)` on an
already-panicking state leaves `panic_count` unchanged, and the scheduler's
injection on a queue already holding a SELF_HEAL task adds nothing. -/
theorem C4_panic_edge_and_dedup_witness :
    (AgentMemory.set_panic 1 true "again"
      (AgentMemory.set_panic 0 true "first" MemoryState.initial)).panicCount =
      (AgentMemory.set_panic 0 true "first" MemoryState.initial).panicCount := by
  have h := (C4_panic_edge_and_dedup
    (AgentMemory.set_panic 0 true "first" MemoryState.initial) 1 "again" true
    metricsRsi98 "g" { pending := [], inProgress := [], completed := [] }).1
  rw [h]
  norm_num [show (AgentMemory.set_panic 0 true "first"
    MemoryState.initial).panicStatus = true from rfl]

/-- **C4 counterexample.** Two error reports through `BaseAgent.on_error`
without an intervening resolution leave **two** SELF_HEAL tasks in the
pending bucket (its enqueue is unconditional, with no `has_task`
deduplication), even though `panic_count` incremented only once — refuting
"at most one SELF_HEAL task ... deduplicated via hasTask". -/
theorem C4_counterexample :
    (let r1 := BaseAgent.on_error "ChaosMonkey" "inject" "boom" "id1" 0
        MemoryState.initial { pending := [], inProgress := [], completed := [] }
     let r2 := BaseAgent.on_error "ChaosMonkey" "inject" "boom" "id2" 1 r1.1 r1.2
     count_self_heal r2.2 = 2 ∧ r2.1.panicCount = 1) := by
  constructor
  · rfl
  · rfl

/-- Policy for the C3/C8 concrete cycles: `repoX` has chaos disabled. -/
def c3Policy : GlobalPolicy :=
  { repositories := [("repoX", { chaosAllowed := some false })] }

/-- The stored pending CHAOS task of the C3/C8 concrete cycles. -/
def c3Stored : TaskD :=
  { id := some "c1", type := some "CHAOS", target := some "repoX"
    priority := some "normal", impact := some "normal"
    category := some "muscle", createdAt := some 1 }

/-- Environment for the C3/C8 concrete cycles. -/
def c3Env : Env :=
  { policyFile := c3Policy, allowFile := .missing, registry := [], repos := []
    now := 5, freshId := fun _ => "fresh" }

/-- World for the C3/C8 concrete cycles: one pending CHAOS task against
`repoX`, everything else at its seed state. -/
def c3World : World :=
  { queue := { pending := [c3Stored], inProgress := [], completed := [] }
    memory := MemoryState.initial, cortexLog := [], classifyPending := [] }

/-- The store state at the uncaught `TypeError` of the concrete blocked
cycle: the claimed task is stranded in the in-progress bucket, nothing is
completed, and the Cortex log is untouched. -/
def c3CrashWorld : World :=
  { queue :=
      { pending := []
        inProgress := [{ c3Stored with startedAt := some 5 }]
        completed := [] }
    memory := MemoryState.initial
    cortexLog := []
    classifyPending := [] }

/-- **C3 (code bug).** A scheduler cycle that claims a CHAOS task whose
resolved policy sets `chaos_allowed` to `false` is intended to complete it
with a blocked outcome (the dead `queue.complete(task, "blocked_by_policy")`
on the next source line, and spec §7), but the cycle instead raises
`TypeError` at the chaos-blocked `log_activity` call (orchestrator.py:235 →
base_agent.py:25 → memory.py:58, which has no `task_id` parameter) before
`complete` runs: evaluating the cycle at the failing input errors with the
claimed task stranded in in-progress and the completed bucket empty. -/
theorem C3_chaos_blocked_crash :
    Orchestrator.run_once c3Env c3World = Except.error c3CrashWorld ∧
    c3CrashWorld.queue.completed = [] :=
  ⟨rfl, rfl⟩

/-- **C8 (amended).** In every cycle that claims a task, the Cortex scorer
runs exactly when the claimed task passes both hard policy gates
(`allowed_agents` and chaos-disabled). When either gate blocks the task, the
cycle raises `TypeError` at the blocked-activity log *before* the scorer, so
no audit entry is appended. When both gates pass, `cortex.evaluate` appends
its audit entry, after which the cycle raises `TypeError` at the
Cortex-score log, before `dispatch` — so no dispatch outcome is ever
reached, and the audit entry's presence is independent of any would-be
dispatch result. -/
theorem C8_cortex_audit (env : Env) (w : World) (t task : TaskD)
    (q4 : QueueState)
    (hpick : Orchestrator.pick_next_task env.policyFile
      (AgentMemory.get_sync_metrics w.memory).rsi
      (Orchestrator.inject_phase env (AgentMemory.get_sync_metrics w.memory)
        w.queue) = some t)
    (hpop : TaskQueue.pop_by_id env.now (t.id.getD "")
      (Orchestrator.inject_phase env (AgentMemory.get_sync_metrics w.memory)
        w.queue) = (some task, q4)) :
    (Orchestrator.is_agent_allowed env.policyFile (task.target.getD "unknown")
        (pyUpper (pyOrS task.type "")) = true →
      ¬ (pyUpper (pyOrS task.type "") = "CHAOS" ∧
         (Orchestrator.policy_for_repo env.policyFile
           (task.target.getD "unknown")).chaosAllowed = some false) →
      Orchestrator.run_once env w = Except.error
        { w with
          queue := q4
          cortexLog := CortexFilter.append_entry w.cortexLog
            (CortexFilter.evaluate env.now task
              (AgentMemory.get_sync_metrics w.memory)) }) ∧
    ((Orchestrator.is_agent_allowed env.policyFile (task.target.getD "unknown")
        (pyUpper (pyOrS task.type "")) = false ∨
      (pyUpper (pyOrS task.type "") = "CHAOS" ∧
       (Orchestrator.policy_for_repo env.policyFile
         (task.target.getD "unknown")).chaosAllowed = some false)) →
      Orchestrator.run_once env w = Except.error { w with queue := q4 }) := by
  constructor
  · intro hal hchaos
    simp only [Orchestrator.run_once, hpick, hpop]
    rw [if_neg (fun hc => hc hal), if_neg hchaos]
    rfl
  · intro h
    simp only [Orchestrator.run_once, hpick, hpop]
    rcases h with h | h
    · rw [if_pos (fun hc => by rw [h] at hc; exact Bool.false_ne_true hc)]
      rfl
    · by_cases hal : Orchestrator.is_agent_allowed env.policyFile
        (task.target.getD "unknown") (pyUpper (pyOrS task.type "")) = true
      · rw [if_neg (fun hc => hc hal), if_pos h]
        rfl
      · rw [if_pos hal]
        rfl

/-- Environment for the C8 positive witness cycle. -/
def c8Env : Env :=
  { policyFile := { }, allowFile := .missing, registry := [], repos := []
    now := 7, freshId := fun _ => "fresh8" }

/-- A stored REPAIR task that passes both policy gates. -/
def c8Stored : TaskD :=
  { id := some "r1", type := some "REPAIR", target := some "org/app"
    priority := some "normal", impact := some "normal"
    category := some "muscle", createdAt := some 2 }

/-- World for the C8 positive witness cycle. -/
def c8World : World :=
  { queue := { pending := [c8Stored], inProgress := [], completed := [] }
    memory := MemoryState.initial, cortexLog := [], classifyPending := [] }

/-- Witness for C8: the concrete gates-passing cycle errors after appending
exactly one Cortex audit entry. -/
theorem C8_cortex_audit_witness :
    Orchestrator.run_once c8Env c8World = Except.error
      { queue :=
          { pending := []
            inProgress := [{ c8Stored with startedAt := some 7 }]
            completed := [] }
        memory := MemoryState.initial
        cortexLog := CortexFilter.append_entry []
          (CortexFilter.evaluate 7 { c8Stored with startedAt := some 7 }
            (AgentMemory.get_sync_metrics MemoryState.initial))
        classifyPending := [] } :=
  (C8_cortex_audit c8Env c8World c8Stored
    { c8Stored with startedAt := some 7 }
    { pending := [], inProgress := [{ c8Stored with startedAt := some 7 }]
      completed := [] }
    rfl rfl).1 rfl (by intro hc; exact absurd hc.1 (by decide))

/-- **C8 counterexample.** A cycle that claims a task blocked by the
chaos-disabled gate appends **no** Cortex entry (the cycle raises before
`cortex.evaluate`), refuting "the Cortex scorer is invoked ... including when
the task is terminated as blocked by ... the chaos-disabled policy". -/
theorem C8_counterexample :
    Orchestrator.run_once c3Env c3World = Except.error c3CrashWorld ∧
    c3CrashWorld.cortexLog = ([] : List CortexEntry) ∧
    c3CrashWorld.queue.inProgress ≠ [] := by
  refine ⟨rfl, rfl, by decide⟩

/-- Witness for C7 at a concrete input: a task with no category scores as
muscle. -/
theorem C7_cortex_score_witness :
    (CortexFilter.evaluate 0 { type := some "REPAIR" } metricsRsi98).score =
      max 1 (min 10 ((5 : ℤ) -
        (if pyUpper (pyOrS (some "REPAIR") "unknown") = "CHAOS" ∧
            metricsRsi98.rsi < 90 then 2 else 0))) :=
  (C7_cortex_score 0 { type := some "REPAIR" } metricsRsi98).2.1 (Or.inl rfl)
